import Mathlib

/-!
Verification of the feishu notification module
(`lib/ansible/modules/notification/feishu.py`).

The module has one class, `FeishuRobot`, with a signer (`gen_sign`) and a
dispatcher (`sendTextmessage`), plus a `main` entry point.  We embed the
module shallowly: the signer becomes a pure function built from executable
models of SHA-256, HMAC and base64; the dispatcher becomes a function from
the inputs, the captured timestamp and a transport oracle to the HTTP
request it issues and the value it returns; `main` becomes a function to
the reported outcome together with the trace of HTTP requests attempted.
-/

namespace Feishu

/-! ### SHA-256 over byte lists (bytes are `Nat` values below 256) -/

/-- Reduce a natural number to a 32-bit word. -/
def w32 (n : Nat) : Nat := n % 4294967296

/-- Right rotation of a 32-bit word by `n` bits. -/
def rotr (n x : Nat) : Nat := w32 (x / 2 ^ n + x % 2 ^ n * 2 ^ (32 - n))

/-- Logical right shift by `n` bits. -/
def shr (n x : Nat) : Nat := x / 2 ^ n

/-- The SHA-256 round constants, in decimal. -/
def sha256K : List Nat :=
  [1116352408, 1899447441, 3049323471, 3921009573, 961987163, 1508970993,
   2453635748, 2870763221, 3624381080, 310598401, 607225278, 1426881987,
   1925078388, 2162078206, 2614888103, 3248222580, 3835390401, 4022224774,
   264347078, 604807628, 770255983, 1249150122, 1555081692, 1996064986,
   2554220882, 2821834349, 2952996808, 3210313671, 3336571891, 3584528711,
   113926993, 338241895, 666307205, 773529912, 1294757372, 1396182291,
   1695183700, 1986661051, 2177026350, 2456956037, 2730485921, 2820302411,
   3259730800, 3345764771, 3516065817, 3600352804, 4094571909, 275423344,
   430227734, 506948616, 659060556, 883997877, 958139571, 1322822218,
   1537002063, 1747873779, 1955562222, 2024104815, 2227730452, 2361852424,
   2428436474, 2756734187, 3204031479, 3329325298]

/-- The eight 32-bit working variables of the SHA-256 state. -/
structure Hash8 where
  a : Nat
  b : Nat
  c : Nat
  d : Nat
  e : Nat
  f : Nat
  g : Nat
  h : Nat
deriving DecidableEq, Repr

/-- The SHA-256 initial hash value, in decimal. -/
def sha256Init : Hash8 :=
  ⟨1779033703, 3144134277, 1013904242, 2773480762,
   1359893119, 2600822924, 528734635, 1541459225⟩

/-- Big-endian composition of four bytes into a 32-bit word. -/
def word4 (b0 b1 b2 b3 : Nat) : Nat := b0 * 16777216 + b1 * 65536 + b2 * 256 + b3

/-- Group a byte list into big-endian 32-bit words (a 64-byte block gives 16). -/
def initialWords : List Nat → List Nat
  | b0 :: b1 :: b2 :: b3 :: rest => word4 b0 b1 b2 b3 :: initialWords rest
  | _ => []

/-- The small sigma-0 function of the SHA-256 message schedule. -/
def ssig0 (x : Nat) : Nat := rotr 7 x ^^^ rotr 18 x ^^^ shr 3 x

/-- The small sigma-1 function of the SHA-256 message schedule. -/
def ssig1 (x : Nat) : Nat := rotr 17 x ^^^ rotr 19 x ^^^ shr 10 x

/-- Extend the 16 block words by `count` further schedule words. -/
def extendWords (w : List Nat) : Nat → List Nat
  | 0 => w
  | c + 1 =>
    let n := w.length
    let nw := w32 (ssig1 (w.getD (n - 2) 0) + w.getD (n - 7) 0 +
                   ssig0 (w.getD (n - 15) 0) + w.getD (n - 16) 0)
    extendWords (w ++ [nw]) c

/-- The big sigma-0 function of the SHA-256 compression loop. -/
def bsig0 (x : Nat) : Nat := rotr 2 x ^^^ rotr 13 x ^^^ rotr 22 x

/-- The big sigma-1 function of the SHA-256 compression loop. -/
def bsig1 (x : Nat) : Nat := rotr 6 x ^^^ rotr 11 x ^^^ rotr 25 x

/-- The choice function (the complement is taken within 32 bits). -/
def chF (x y z : Nat) : Nat := (x &&& y) ^^^ ((x ^^^ 0xffffffff) &&& z)

/-- The majority function. -/
def majF (x y z : Nat) : Nat := (x &&& y) ^^^ (x &&& z) ^^^ (y &&& z)

/-- One SHA-256 compression round, fed one `(constant, scheduleWord)` pair. -/
def sha256Round (st : Hash8) (kw : Nat × Nat) : Hash8 :=
  let t1 := w32 (st.h + bsig1 st.e + chF st.e st.f st.g + kw.1 + kw.2)
  let t2 := w32 (bsig0 st.a + majF st.a st.b st.c)
  ⟨w32 (t1 + t2), st.a, st.b, st.c, w32 (st.d + t1), st.e, st.f, st.g⟩

/-- Compress one 64-byte block into the running hash state. -/
def sha256Compress (st : Hash8) (block : List Nat) : Hash8 :=
  let w := extendWords (initialWords block) 48
  let r := (sha256K.zip w).foldl sha256Round st
  ⟨w32 (st.a + r.a), w32 (st.b + r.b), w32 (st.c + r.c), w32 (st.d + r.d),
   w32 (st.e + r.e), w32 (st.f + r.f), w32 (st.g + r.g), w32 (st.h + r.h)⟩

/-- Big-endian 8-byte encoding of a 64-bit length. -/
def lenBytes8 (n : Nat) : List Nat :=
  [n / 2 ^ 56 % 256, n / 2 ^ 48 % 256, n / 2 ^ 40 % 256, n / 2 ^ 32 % 256,
   n / 2 ^ 24 % 256, n / 2 ^ 16 % 256, n / 2 ^ 8 % 256, n % 256]

/-- SHA-256 padding: a `0x80` byte, zeros up to 56 mod 64, then the bit length. -/
def sha256Pad (msg : List Nat) : List Nat :=
  let l := msg.length
  let k := (64 + 55 - l % 64) % 64
  msg ++ 128 :: (List.replicate k 0 ++ lenBytes8 (8 * l))

/-- Fold the compression function over the 64-byte blocks of a list; the
fuel argument keeps the recursion structural so that the kernel can
evaluate it, and is always supplied so as to cover every block. -/
def processBlocks : Nat → Hash8 → List Nat → Hash8
  | 0, st, _ => st
  | _ + 1, st, [] => st
  | fuel + 1, st, l => processBlocks fuel (sha256Compress st (l.take 64)) (l.drop 64)

/-- Big-endian byte serialization of one 32-bit word. -/
def wordBytes (w : Nat) : List Nat := [w / 16777216 % 256, w / 65536 % 256, w / 256 % 256, w % 256]

/-- Serialize the final state into the 32 digest bytes. -/
def Hash8.serialize (st : Hash8) : List Nat :=
  wordBytes st.a ++ (wordBytes st.b ++ (wordBytes st.c ++ (wordBytes st.d ++
  (wordBytes st.e ++ (wordBytes st.f ++ (wordBytes st.g ++ wordBytes st.h))))))

/-- SHA-256 of a byte list. -/
def sha256 (msg : List Nat) : List Nat :=
  let p := sha256Pad msg
  (processBlocks (p.length / 64) sha256Init p).serialize

/-! ### HMAC-SHA256, as in Python's `hmac` module (block size 64) -/

/-- HMAC-SHA256 of a message under a key: the key is hashed down if longer
than the 64-byte block, zero-padded to the block size, and combined with the
inner and outer pad constants. -/
def hmacSha256 (key msg : List Nat) : List Nat :=
  let k0 := if 64 < key.length then sha256 key else key
  let kp := k0 ++ List.replicate (64 - k0.length) 0
  let ipad := kp.map (fun b => b ^^^ 0x36)
  let opad := kp.map (fun b => b ^^^ 0x5c)
  sha256 (opad ++ sha256 (ipad ++ msg))

/-! ### UTF-8 encoding, as Python's `str.encode("utf-8")` -/

/-- The UTF-8 bytes of one Unicode scalar value. -/
def utf8EncodeChar (c : Char) : List Nat :=
  let n := c.toNat
  if n < 128 then [n]
  else if n < 2048 then [192 + n / 64, 128 + n % 64]
  else if n < 65536 then [224 + n / 4096, 128 + n / 64 % 64, 128 + n % 64]
  else [240 + n / 262144, 128 + n / 4096 % 64, 128 + n / 64 % 64, 128 + n % 64]

/-- The UTF-8 bytes of a string. -/
def utf8 (s : String) : List Nat := (s.data.map utf8EncodeChar).flatten

/-! ### Base64, standard alphabet with padding, as Python's `base64.b64encode` -/

/-- The standard base64 alphabet. -/
def b64Alphabet : List Char :=
  "ABCDEFGHIJKLMNOPQRSTUVWXYZabcdefghijklmnopqrstuvwxyz0123456789+/".data

/-- The base64 character for a 6-bit value. -/
def b64Char (n : Nat) : Char := b64Alphabet.getD n 'A'

/-- Encode a byte list into base64 characters, three bytes at a time, with
trailing `=` padding for a final group of one or two bytes. -/
def b64EncodeBytes : List Nat → List Char
  | [] => []
  | [b0] => [b64Char (b0 / 4), b64Char (b0 % 4 * 16), '=', '=']
  | [b0, b1] => [b64Char (b0 / 4), b64Char (b0 % 4 * 16 + b1 / 16), b64Char (b1 % 16 * 4), '=']
  | b0 :: b1 :: b2 :: rest =>
      b64Char (b0 / 4) :: b64Char (b0 % 4 * 16 + b1 / 16) ::
      b64Char (b1 % 16 * 4 + b2 / 64) :: b64Char (b2 % 64) :: b64EncodeBytes rest

/-- Base64 encoding of a byte list as a string. -/
def b64encode (bs : List Nat) : String := String.mk (b64EncodeBytes bs)

/-- The 6-bit value of a base64 character, if it is in the alphabet. -/
def b64CharVal (c : Char) : Option Nat := b64Alphabet.indexOf? c

/-- Decode base64 characters back into bytes, four characters at a time;
`=` padding is accepted only in the final group. -/
def b64DecodeChars : List Char → Option (List Nat)
  | [] => some []
  | c0 :: c1 :: c2 :: c3 :: rest =>
      match b64CharVal c0, b64CharVal c1 with
      | some d0, some d1 =>
        if c2 = '=' ∧ c3 = '=' ∧ rest = [] then
          some [d0 * 4 + d1 / 16]
        else if c3 = '=' ∧ rest = [] then
          match b64CharVal c2 with
          | some d2 => some [d0 * 4 + d1 / 16, d1 % 16 * 16 + d2 / 4]
          | none => none
        else
          match b64CharVal c2, b64CharVal c3, b64DecodeChars rest with
          | some d2, some d3, some bs =>
              some ((d0 * 4 + d1 / 16) :: (d1 % 16 * 16 + d2 / 4) :: (d2 % 4 * 64 + d3) :: bs)
          | _, _, _ => none
      | _, _ => none
  | _ => none

/-- Base64 decoding of a string. -/
def b64decode (s : String) : Option (List Nat) := b64DecodeChars s.data

/-! ### The signer: `FeishuRobot.gen_sign`

Source (`feishu.py`, lines 119-125):
```
def gen_sign(self, timestamp):
    secret = self.secret
    string_to_sign = '{}\n{}'.format(timestamp, secret)
    hmac_code = hmac.new(string_to_sign.encode("utf-8"), digestmod=hashlib.sha256).digest()
    sign = base64.b64encode(hmac_code).decode('utf-8')
    return sign
```
`hmac.new` is given no message, so the concatenated string is the HMAC key
and the HMAC message is empty. -/

/-- The string `'{}\n{}'.format(timestamp, secret)` of the source. -/
def string_to_sign (timestamp : Int) (secret : String) : String :=
  toString timestamp ++ "\n" ++ secret

/-- The signature of `FeishuRobot.gen_sign`: base64 of the HMAC-SHA256 digest
with the UTF-8 bytes of `string_to_sign` as the key and an empty message. -/
def gen_sign (secret : String) (timestamp : Int) : String :=
  b64encode (hmacSha256 (utf8 (string_to_sign timestamp secret)) [])

/-- The signature scheme as the specification words it (section 4.1):
concatenate the decimal timestamp and the secret separated by a newline,
use the UTF-8 bytes of that concatenated string as the HMAC-SHA256 key
material (the digest is taken with the message position left at its
implicit default, the empty message), then base64-encode the raw digest
bytes with the standard alphabet and padding, no truncation. -/
def spec_signature (secret : String) (timestampSeconds : Int) : String :=
  b64encode (hmacSha256 (utf8 (toString timestampSeconds ++ "\n" ++ secret)) [])

/-! ### JSON values and Python's `json.dumps` with default options -/

/-- The JSON value shapes this module produces (strings, booleans, None and
dicts cover every value `feishu.py` serializes or reports). -/
inductive Json where
  | null
  | bool (b : Bool)
  | str (s : String)
  | obj (fields : List (String × Json))

/-- Lowercase hexadecimal digit. -/
def hexDigit (n : Nat) : Char := "0123456789abcdef".data.getD n '0'

/-- Four lowercase hex digits of a value below 2^16. -/
def hex4 (n : Nat) : List Char :=
  [hexDigit (n / 4096 % 16), hexDigit (n / 256 % 16), hexDigit (n / 16 % 16), hexDigit (n % 16)]

/-- Escape one character the way Python's `json.dumps` does with its default
`ensure_ascii=True`: the two-character escapes for quote, backslash and the
common control characters, `\uXXXX` for other control and all non-ASCII
characters (with a surrogate pair beyond the basic plane), and the
character itself for printable ASCII. -/
def pyEscapeChar (c : Char) : List Char :=
  if c = '"' then ['\\', '"']
  else if c = '\\' then ['\\', '\\']
  else if c = '\n' then ['\\', 'n']
  else if c = '\r' then ['\\', 'r']
  else if c = '\t' then ['\\', 't']
  else if c.toNat = 8 then ['\\', 'b']
  else if c.toNat = 12 then ['\\', 'f']
  else if c.toNat < 32 then '\\' :: 'u' :: hex4 c.toNat
  else if c.toNat < 127 then [c]
  else if c.toNat < 65536 then '\\' :: 'u' :: hex4 c.toNat
  else ('\\' :: 'u' :: hex4 (55296 + (c.toNat - 65536) / 1024)) ++
       ('\\' :: 'u' :: hex4 (56320 + (c.toNat - 65536) % 1024))

/-- A Python JSON string literal: the escaped characters between quotes. -/
def pyQuote (s : String) : String :=
  String.mk ('"' :: (s.data.map pyEscapeChar).flatten ++ ['"'])

/-- Serialize a JSON value the way Python's `json.dumps` does with default
options (insertion-ordered dict keys, separators `", "` and `": "`,
`ensure_ascii=True`).  The fuel argument only bounds the nesting depth so
that the recursion stays structural; every payload this module builds has
depth at most 2 and the serializer is always called with ample fuel. -/
def Json.dumpsF : Nat → Json → String
  | _, .null => "null"
  | _, .bool b => cond b "true" "false"
  | _, .str s => pyQuote s
  | 0, .obj _ => ""
  | fuel + 1, .obj fs =>
    "\x7b" ++ String.intercalate ", "
      (fs.map (fun p => pyQuote p.1 ++ ": " ++ Json.dumpsF fuel p.2)) ++ "\x7d"

/-- The serializer at the fuel every call site of this module stays below. -/
def json_dumps (j : Json) : String := Json.dumpsF 8 j

/-- Look up a field of a JSON object. -/
def Json.lookupField (j : Json) (k : String) : Option Json :=
  match j with
  | .obj fs => fs.lookup k
  | _ => none

/-! ### The dispatcher: `FeishuRobot.sendTextmessage`

Source (`feishu.py`, lines 128-147):
```
def sendTextmessage(self, content, ats):
    url = self.webhook
    headers = { "Content-Type": "application/json; charset=utf-8" }
    timestamp = int(time.time())
    sign = self.gen_sign(timestamp)
    payload_message = { "timestamp": "{}".format(timestamp), "sign": "{}".format(sign),
                        "msg_type": "text", "content": { "text": content } }
    response = requests.post(url=url, data=json.dumps(payload_message), headers=headers)
    return response.json
```
-/

/-- An outgoing HTTP request, as `requests.post(url=..., data=..., headers=...)`
receives it. -/
structure HttpRequest where
  url : String
  headers : List (String × String)
  body : String
deriving DecidableEq

/-- A transport-level response: the slice of the `requests` response object
the module can touch — its status and the body text its `json()` method
would parse. -/
structure HttpResponse where
  status : Nat
  body : String
deriving DecidableEq

/-- An exception value: its human-readable string (what `to_native(e)`
yields) and its formatted traceback (what `traceback.format_exc()` yields). -/
structure PyException where
  msg : String
  trace : String
deriving DecidableEq

/-- The value of the Python expression `response.json`.  In the source the
attribute is never called, so the dispatcher hands back the bound decoding
method; `parsedValue` is the shape the result of actually invoking that
method would have, and exists to state that distinction. -/
inductive DispatchReturn where
  | jsonMethod (responseBody : String)
  | parsedValue (j : Json)

/-- Python attribute access `response.json` without a call: the bound method. -/
def HttpResponse.json (r : HttpResponse) : DispatchReturn := .jsonMethod r.body

/-- The dict literal `payload_message` of `sendTextmessage` (lines 134-144);
`"{}".format` of an int is its decimal string and of a string is itself. -/
def payload_message (timestamp : Int) (sign : String) (content : String) : Json :=
  .obj [("timestamp", .str (toString timestamp)),
        ("sign", .str sign),
        ("msg_type", .str "text"),
        ("content", .obj [("text", .str content)])]

/-- The headers dict of `sendTextmessage` (lines 130-132). -/
def sendHeaders : List (String × String) := [("Content-Type", "application/json; charset=utf-8")]

/-- The HTTP request `sendTextmessage` hands to `requests.post`: the webhook
URL, the headers, and `json.dumps(payload_message)` as the body.  The
parameter `now` stands for the captured `int(time.time())`. -/
def sendTextmessage_request (webhook secret content : String) (now : Int) : HttpRequest :=
  let timestamp := now
  let sign := gen_sign secret timestamp
  { url := webhook, headers := sendHeaders,
    body := json_dumps (payload_message timestamp sign content) }

/-- The transport oracle: what `requests.post` does for a given request —
either raise an exception or return a response (it raises on transport
failures only, never on HTTP error statuses). -/
abbrev Transport : Type := HttpRequest → Except PyException HttpResponse

/-- The dispatcher `FeishuRobot.sendTextmessage` (lines 128-147): build the
request, post it, and evaluate `return response.json`.  The result pairs
the returned value (or the propagated exception) with the trace of requests
handed to the transport.  The `ats` parameter is bound but never read, as
in the source. -/
def sendTextmessage (webhook secret : String) (content : String) (ats : Option String)
    (now : Int) (post : Transport) : Except PyException DispatchReturn × List HttpRequest :=
  let req := sendTextmessage_request webhook secret content now
  match post req with
  | .error e => (.error e, [req])
  | .ok response => (.ok response.json, [req])

/-! ### The entry point: `main` (lines 150-174) -/

/-- The fields of the one `module.exit_json` or `module.fail_json` call that
ends the invocation. -/
inductive Outcome where
  | exited (fields : List (String × Json))
  | failed (fields : List (String × Json))

/-- An optional module parameter rendered into the JSON result (`None`
serializes as `null`). -/
def optJson : Option String → Json
  | none => .null
  | some s => .str s

/-- The module parameters after `AnsibleModule` validation: `webhook`,
`secret` and `msg` are required strings, `ats` is optional. -/
structure ModuleParams where
  webhook : String
  secret : String
  ats : Option String
  msg : String
deriving DecidableEq

/-- The check-mode gate of `FeishuRobot.__init__` (lines 115-117): under
check mode the constructor calls `module.exit_json(changed=False)`, which
ends the process before any signing or sending (`SystemExit` is not an
`Exception`, so the `try` block in `main` does not intercept it). -/
def init_check (check_mode : Bool) : Option Outcome :=
  if check_mode then some (.exited [("changed", .bool false)]) else none

/-- The `main` entry point (lines 150-174): construct the robot (which may
end the run in check mode), dispatch the message, convert any exception
into one `fail_json` report with `msg = "unable to send msg: %s" % msg`,
`feishu_error = to_native(e)` and `exception = traceback.format_exc()`, and
otherwise exit with `changed=True`, the echoed `ats` and the echoed `msg`.
Returns the reported outcome together with the trace of HTTP requests
handed to the transport. -/
def main_run (p : ModuleParams) (check_mode : Bool) (now : Int) (post : Transport) :
    Outcome × List HttpRequest :=
  match init_check check_mode with
  | some out => (out, [])
  | none =>
    match sendTextmessage p.webhook p.secret p.msg p.ats now post with
    | (.error e, reqs) =>
        (.failed [("msg", .str ("unable to send msg: " ++ p.msg)),
                  ("feishu_error", .str e.msg),
                  ("exception", .str e.trace)], reqs)
    | (.ok _, reqs) =>
        (.exited [("changed", .bool true), ("ats", optJson p.ats), ("msg", .str p.msg)], reqs)

/-! ### Supporting lemmas -/

/-- Every serialized word byte is below 256. -/
theorem wordBytes_lt (w : Nat) : ∀ b ∈ wordBytes w, b < 256 := by
  intro b hb
  simp [wordBytes] at hb
  rcases hb with rfl | rfl | rfl | rfl <;> omega

/-- A serialized hash state is exactly 32 bytes. -/
theorem serialize_length (st : Hash8) : st.serialize.length = 32 := by
  simp [Hash8.serialize, wordBytes]

/-- Every byte of a serialized hash state is below 256. -/
theorem serialize_lt (st : Hash8) : ∀ b ∈ st.serialize, b < 256 := by
  intro b hb
  simp only [Hash8.serialize, List.mem_append] at hb
  rcases hb with hb | hb | hb | hb | hb | hb | hb | hb <;> exact wordBytes_lt _ _ hb

/-- A SHA-256 digest is exactly 32 bytes. -/
theorem sha256_length (m : List Nat) : (sha256 m).length = 32 := serialize_length _

/-- Every byte of a SHA-256 digest is below 256. -/
theorem sha256_lt (m : List Nat) : ∀ b ∈ sha256 m, b < 256 := serialize_lt _

/-- An HMAC-SHA256 digest is exactly 32 bytes. -/
theorem hmacSha256_length (key msg : List Nat) : (hmacSha256 key msg).length = 32 :=
  sha256_length _

/-- Every byte of an HMAC-SHA256 digest is below 256. -/
theorem hmacSha256_lt (key msg : List Nat) : ∀ b ∈ hmacSha256 key msg, b < 256 :=
  sha256_lt _

/-- Decoding the base64 character of a 6-bit value recovers the value. -/
theorem b64_val_char : ∀ n, n < 64 → b64CharVal (b64Char n) = some n := by decide

/-- No alphabet character is the padding character. -/
theorem b64Char_ne_pad : ∀ n, n < 64 → b64Char n ≠ '=' := by decide

/-- Base64 decoding inverts base64 encoding on byte lists. -/
theorem b64_decode_encode : ∀ l : List Nat, (∀ b ∈ l, b < 256) →
    b64DecodeChars (b64EncodeBytes l) = some l
  | [], _ => rfl
  | [b0], h => by
      have hb0 : b0 < 256 := h b0 (by simp)
      have h0 := b64_val_char (b0 / 4) (by omega)
      have h1 := b64_val_char (b0 % 4 * 16) (by omega)
      simp [b64EncodeBytes, b64DecodeChars, h0, h1]
      omega
  | [b0, b1], h => by
      have hb0 : b0 < 256 := h b0 (by simp)
      have hb1 : b1 < 256 := h b1 (by simp)
      have h0 := b64_val_char (b0 / 4) (by omega)
      have h1 := b64_val_char (b0 % 4 * 16 + b1 / 16) (by omega)
      have h2 := b64_val_char (b1 % 16 * 4) (by omega)
      have hne := b64Char_ne_pad (b1 % 16 * 4) (by omega)
      simp [b64EncodeBytes, b64DecodeChars, h0, h1, h2, hne]
      constructor <;> omega
  | b0 :: b1 :: b2 :: rest, h => by
      have hb0 : b0 < 256 := h b0 (by simp)
      have hb1 : b1 < 256 := h b1 (by simp)
      have hb2 : b2 < 256 := h b2 (by simp)
      have h0 := b64_val_char (b0 / 4) (by omega)
      have h1 := b64_val_char (b0 % 4 * 16 + b1 / 16) (by omega)
      have h2 := b64_val_char (b1 % 16 * 4 + b2 / 64) (by omega)
      have h3 := b64_val_char (b2 % 64) (by omega)
      have hne2 := b64Char_ne_pad (b1 % 16 * 4 + b2 / 64) (by omega)
      have hne3 := b64Char_ne_pad (b2 % 64) (by omega)
      have ih := b64_decode_encode rest (fun b hb => h b (by simp [hb]))
      simp [b64EncodeBytes, b64DecodeChars, h0, h1, h2, h3, hne2, hne3, ih]
      refine ⟨?_, ?_, ?_⟩ <;> omega

/-! ### The claims -/

set_option maxRecDepth 1000000 in
/-- C1: for every secret string and integer timestamp, the signature
produced by `gen_sign` equals the base64 encoding (standard alphabet, with
padding, no truncation) of the HMAC-SHA256 digest whose key material is the
UTF-8 bytes of the framing `"{timestamp}\n{secret}"` (the documented
scheme, `spec_signature`); in particular, for timestamp 1700000000 and
secret `"topsecret"` the signature equals the independently computed golden
value of this scheme. -/
theorem C1_gen_sign_documented_scheme (secret : String) (timestamp : Int) :
    gen_sign secret timestamp = spec_signature secret timestamp ∧
    gen_sign "topsecret" 1700000000 = "YYwhpW0DojOMeEoJw+vpuvaw1aHMCx3kPEmfSlnJ6rA=" :=
  ⟨rfl, by decide⟩

set_option maxRecDepth 1000000 in
/-- C2: for every message string, captured timestamp and computed
signature, the dispatcher's request body is the serialization of an object
with exactly the fields `timestamp` (the timestamp as a string-encoded
integer), `sign` (the signature), `msg_type` (the literal `"text"`) and
`content` (a nested object whose `text` field is exactly the message), the
request carries the `Content-Type: application/json; charset=utf-8` header,
and on the concrete message `"Ansible task finished"` the body comes out
with no escaping beyond standard JSON string escaping. -/
theorem C2_payload_shape (webhook secret content : String) (now : Int) :
    sendTextmessage_request webhook secret content now =
      { url := webhook,
        headers := [("Content-Type", "application/json; charset=utf-8")],
        body := json_dumps (Json.obj
          [("timestamp", Json.str (toString now)),
           ("sign", Json.str (gen_sign secret now)),
           ("msg_type", Json.str "text"),
           ("content", Json.obj [("text", Json.str content)])]) } ∧
    ((payload_message now (gen_sign secret now) content).lookupField "content").bind
        (fun j => j.lookupField "text") = some (Json.str content) ∧
    (sendTextmessage_request "https://open.feishu.cn/open-apis/bot/v2/hook/x" "topsecret"
        "Ansible task finished" 1700000000).body =
      "\x7b\"timestamp\": \"1700000000\", \"sign\": \"YYwhpW0DojOMeEoJw+vpuvaw1aHMCx3kPEmfSlnJ6rA=\", \"msg_type\": \"text\", \"content\": \x7b\"text\": \"Ansible task finished\"\x7d\x7d" :=
  ⟨rfl, rfl, by decide⟩

/-- C3 counterexample: at a concrete 2xx response with body
`{"code": 0}`, the value `sendTextmessage` returns is not a parsed JSON
value for any `j`; the source line `return response.json` hands back the
bound decoding method without calling it. -/
theorem C3_counterexample :
    ¬ ∃ j : Json, (sendTextmessage "https://open.feishu.cn/open-apis/bot/v2/hook/x" "topsecret"
        "Ansible task finished" none 1700000000
        (fun _ => Except.ok ⟨200, "\x7b\"code\": 0\x7d"⟩)).1 =
      Except.ok (DispatchReturn.parsedValue j) := by
  rintro ⟨j, h⟩
  have hr : (sendTextmessage "https://open.feishu.cn/open-apis/bot/v2/hook/x" "topsecret"
      "Ansible task finished" none 1700000000
      (fun _ => Except.ok ⟨200, "\x7b\"code\": 0\x7d"⟩)).1 =
      Except.ok (DispatchReturn.jsonMethod "\x7b\"code\": 0\x7d") := rfl
  rw [hr] at h
  simp at h

/-- C3 amended: when the HTTP POST completes with a response (of any
status class, 2xx included), `sendTextmessage` returns the response's
un-invoked json-decoding method — an unparsed response handle carrying the
raw body — rather than a parsed value. -/
theorem C3_returns_unparsed_handle (webhook secret content : String) (ats : Option String)
    (now : Int) (resp : HttpResponse) :
    (sendTextmessage webhook secret content ats now (fun _ => Except.ok resp)).1 =
      Except.ok (DispatchReturn.jsonMethod resp.body) := rfl

/-- C4: when the message is empty and the remote endpoint answers with an
application-level error body, the invocation still takes the success
reporting path (`exit_json` with `changed=True`) — the response body is
never inspected and the remote error string `"Bad Request: message text is
empty"` appears nowhere in the report, contradicting the module's own
RETURN documentation of `feishu_error`. -/
theorem C4_remote_rejection_ignored :
    (main_run ⟨"https://open.feishu.cn/open-apis/bot/v2/hook/x", "topsecret", none, ""⟩
        false 1700000000
        (fun _ => Except.ok
          ⟨200, "\x7b\"code\":9499,\"msg\":\"Bad Request: message text is empty\"\x7d"⟩)).1 =
      Outcome.exited [("changed", Json.bool true), ("ats", Json.null), ("msg", Json.str "")] :=
  rfl

/-- C5: every exception raised during signing or dispatch is caught at the
invocation boundary and converted into exactly one failure report whose
`msg` field is the attempted message prefixed by the fixed error text,
whose `feishu_error` field is the exception's own human-readable string
(non-empty whenever that string is non-empty), and whose `exception` field
is the full diagnostic trace; exactly one HTTP request was attempted, so
nothing is retried. -/
theorem C5_exception_one_failure_report (p : ModuleParams) (now : Int) (e : PyException)
    (h : e.msg ≠ "") :
    (main_run p false now (fun _ => Except.error e)).1 =
      Outcome.failed [("msg", Json.str ("unable to send msg: " ++ p.msg)),
                      ("feishu_error", Json.str e.msg),
                      ("exception", Json.str e.trace)] ∧
    (main_run p false now (fun _ => Except.error e)).2.length = 1 ∧
    Json.str e.msg ≠ Json.str "" := by
  refine ⟨rfl, rfl, ?_⟩
  intro hc
  exact h (by injection hc)

/-- C5 witness: the failure report at a concrete unreachable-host
exception. -/
theorem C5_witness :
    (main_run ⟨"https://unreachable.invalid/hook", "topsecret", some "userA",
        "Ansible task finished"⟩ false 1700000000
        (fun _ => Except.error ⟨"Failed to establish a new connection",
          "Traceback (most recent call last): ConnectionError"⟩)).1 =
      Outcome.failed [("msg", Json.str ("unable to send msg: " ++ "Ansible task finished")),
                      ("feishu_error", Json.str "Failed to establish a new connection"),
                      ("exception", Json.str "Traceback (most recent call last): ConnectionError")] ∧
    (main_run ⟨"https://unreachable.invalid/hook", "topsecret", some "userA",
        "Ansible task finished"⟩ false 1700000000
        (fun _ => Except.error ⟨"Failed to establish a new connection",
          "Traceback (most recent call last): ConnectionError"⟩)).2.length = 1 ∧
    Json.str "Failed to establish a new connection" ≠ Json.str "" :=
  C5_exception_one_failure_report
    ⟨"https://unreachable.invalid/hook", "topsecret", some "userA", "Ansible task finished"⟩
    1700000000
    ⟨"Failed to establish a new connection",
      "Traceback (most recent call last): ConnectionError"⟩
    (by decide)

/-- C6: every invocation that reaches the success reporting path reports
the message text unchanged, the recipients value unchanged, and a
changed-state flag that is always true. -/
theorem C6_success_echoes (p : ModuleParams) (now : Int) (resp : HttpResponse) :
    (main_run p false now (fun _ => Except.ok resp)).1 =
      Outcome.exited [("changed", Json.bool true), ("ats", optJson p.ats),
                      ("msg", Json.str p.msg)] := rfl

/-- C7: the recipients parameter has no influence on the dispatcher: for
any two `ats` values and fixed message, secret, webhook, timestamp and
transport, `sendTextmessage` produces an identical request trace and an
identical result. -/
theorem C7_ats_no_influence (webhook secret content : String) (ats1 ats2 : Option String)
    (now : Int) (post : Transport) :
    sendTextmessage webhook secret content ats1 now post =
      sendTextmessage webhook secret content ats2 now post := rfl

/-- C8: `gen_sign` is deterministic — two calls whose secrets are equal and
whose timestamps are equal yield the identical signature string. -/
theorem C8_gen_sign_deterministic (s1 s2 : String) (t1 t2 : Int)
    (hs : s1 = s2) (ht : t1 = t2) : gen_sign s1 t1 = gen_sign s2 t2 := by
  rw [hs, ht]

/-- C8 witness: determinism at the concrete golden input. -/
theorem C8_witness :
    gen_sign "topsecret" 1700000000 = gen_sign "topsecret" 1700000000 :=
  C8_gen_sign_deterministic "topsecret" "topsecret" 1700000000 1700000000 rfl rfl

/-- C9: for every secret string and integer timestamp, base64-decoding the
signature returned by `gen_sign` yields exactly 32 bytes, the SHA-256
digest length. -/
theorem C9_decoded_signature_is_32_bytes (secret : String) (timestamp : Int) :
    ∃ digest : List Nat,
      b64decode (gen_sign secret timestamp) = some digest ∧ digest.length = 32 := by
  refine ⟨hmacSha256 (utf8 (string_to_sign timestamp secret)) [], ?_, hmacSha256_length _ _⟩
  exact b64_decode_encode _ (hmacSha256_lt _ _)

/-- C10: with the host framework's check mode enabled, constructing the
robot ends the invocation at once with a changed-state flag of false —
whatever the transport would do — and the trace of issued HTTP requests is
empty, so no signature is used and no outbound side effect occurs. -/
theorem C10_check_mode_no_side_effect (p : ModuleParams) (now : Int) (post : Transport) :
    main_run p true now post = (Outcome.exited [("changed", Json.bool false)], []) := rfl

end Feishu
